import Mathlib

/-!
Verification development for the Lighthouse workflow Python script template
(`src/Docs/guides/python-script-template.py`) and the requirement-registry
status rules described by the repository specification.

The Python script is shallowly embedded: JSON values become an inductive
type `JVal`, Python dictionaries become association lists in insertion
order, the filesystem becomes an explicit `FS` value, exceptions become an
explicit error type `PyErr` threaded through `Except`, and the
`if __name__ == '__main__'` block becomes the function `runScript`
producing the list of JSON objects printed to stdout, the exit code, and
the file writes performed.
-/

/-- JSON values as produced by `json.loads`.  Numbers are modelled exactly
as `m * 10 ^ sc` (mantissa and decimal scale); IEEE-754 rounding of Python
floats is idealised away (no claim depends on it).  `sc = 0` corresponds to
a Python `int`, `sc ≠ 0` to a Python `float`. -/
inductive JVal where
  | null : JVal
  | bool (b : Bool) : JVal
  | num (m : Int) (sc : Int) : JVal
  | str (s : String) : JVal
  | arr (xs : List JVal) : JVal
  | obj (fields : List (String × JVal)) : JVal

/-- A Python dict of JSON values, in insertion order. -/
abbrev Dict := List (String × JVal)

/-- Python `k in d` for a dict. -/
def dictHas (d : Dict) (k : String) : Bool :=
  d.any (fun p => p.1 == k)

/-- Python `d.get(k)` (first binding; keys are kept unique by `dictInsert`). -/
def dictGet (d : Dict) (k : String) : Option JVal :=
  (d.find? (fun p => p.1 == k)).map (fun p => p.2)

/-- Python `d.get(k, dflt)`. -/
def dictGetD (d : Dict) (k : String) (dflt : JVal) : JVal :=
  (dictGet d k).getD dflt

/-- Python dict assignment `d[k] = v`: replace in place if the key exists
(keeping its original position), else append. -/
def dictInsert (d : Dict) (k : String) (v : JVal) : Dict :=
  match d with
  | [] => [(k, v)]
  | p :: rest => if p.1 == k then (k, v) :: rest else p :: dictInsert rest k v

/-- Python exceptions that the script can raise, by (Python) type. -/
inductive PyErr where
  | valueError (msg : String) : PyErr
  | fileNotFoundError (msg : String) : PyErr
  | otherError (ty : String) (msg : String) : PyErr

/-- The Python type name of an exception value. -/
def pyErrType : PyErr → String
  | .valueError _ => "ValueError"
  | .fileNotFoundError _ => "FileNotFoundError"
  | .otherError ty _ => ty

/-- The `str(e)` message of an exception value. -/
def pyErrMsg : PyErr → String
  | .valueError m => m
  | .fileNotFoundError m => m
  | .otherError _ m => m

/-- The filesystem visible to one run: readable files (path, contents) and
the set of paths at which opening for writing raises `FileNotFoundError`
(e.g. because the directory does not exist). -/
structure FS where
  files : List (String × String)
  badWrites : List String

/-- Combined `os.path.exists` and `open(p, 'r').read()`: the contents of a
readable file, if present. -/
def FS.readFile (fs : FS) (p : String) : Option String :=
  (fs.files.find? (fun q => q.1 == p)).map (fun q => q.2)

/-- Whether `needle` is a prefix of `hay` (over characters). -/
def listHasPre (needle hay : List Char) : Bool :=
  match needle, hay with
  | [], _ => true
  | _ :: _, [] => false
  | n :: ns, h :: hs => n == h && listHasPre ns hs

/-- Whether `needle` occurs as a contiguous substring of the list. -/
def listHasSub (needle : List Char) : List Char → Bool
  | [] => needle.isEmpty
  | c :: cs => listHasPre needle (c :: cs) || listHasSub needle cs

/-- Python `needle in hay` for strings (substring test). -/
def strHasSub (hay needle : String) : Bool :=
  listHasSub needle.data hay.data

/-- The Python type name of a JSON value (as `type(v).__name__`). -/
def pyTypeName : JVal → String
  | .null => "NoneType"
  | .bool _ => "bool"
  | .num _ sc => if sc = 0 then "int" else "float"
  | .str _ => "str"
  | .arr _ => "list"
  | .obj _ => "dict"

/-- Python truthiness of a JSON value. -/
def truthy : JVal → Bool
  | .null => false
  | .bool b => b
  | .num m _ => m != 0
  | .str s => s.data.length != 0
  | .arr xs => !xs.isEmpty
  | .obj d => !d.isEmpty

/-- Whether a JSON value is a JSON number.  A JSON boolean is not a
number, though `validate_inputs` nonetheless accepts boolean thresholds
because Python `bool` is a subclass of `int`. -/
def isNumVal : JVal → Bool
  | .num _ _ => true
  | _ => false

/-- Rendering of a JSON number in an f-string (exact for Python ints,
which are the only numbers the claims evaluate it at; a simplified
mantissa-exponent form stands in for Python float repr). -/
def pyNumStr (m sc : Int) : String :=
  if sc = 0 then toString m else toString m ++ "e" ++ toString sc

/-- Python `needle in v` (the `in` operator): key test for dicts,
membership for lists (a string can only equal a string element),
substring test for strings, `TypeError` otherwise. -/
def pyIn (needle : String) : JVal → Except PyErr Bool
  | .obj d => .ok (dictHas d needle)
  | .arr xs => .ok (xs.any (fun v => match v with | .str s => s == needle | _ => false))
  | .str s => .ok (strHasSub s needle)
  | v => .error (.otherError "TypeError"
      ("argument of type " ++ pyTypeName v ++ " is not iterable"))

/-- Python `v[k]` with a string key: dict lookup (`KeyError` when absent),
`TypeError` for lists, strings and the rest. -/
def pySubscript (v : JVal) (k : String) : Except PyErr JVal :=
  match v with
  | .obj d =>
    match dictGet d k with
    | some x => .ok x
    | none => .error (.otherError "KeyError" k)
  | .arr _ => .error (.otherError "TypeError" "list indices must be integers or slices, not str")
  | .str _ => .error (.otherError "TypeError" "string indices must be integers")
  | w => .error (.otherError "TypeError" (pyTypeName w ++ " is not subscriptable"))

/-! ## Model of `json.loads`

A total, fuel-driven JSON parser over the character list of the input.
It accepts the standard JSON grammar (objects, arrays, strings with the
usual escapes, integers with optional fraction/exponent, literals); the
CPython extensions `NaN`/`Infinity` and the exact wording of CPython's
error messages are idealised.  Duplicate object keys keep the last value
at the first key's position, as Python dict construction does. -/

/-- Skip JSON whitespace. -/
def skipWs : List Char → List Char
  | [] => []
  | c :: cs => if c = ' ' || c = '\t' || c = '\n' || c = '\r' then skipWs cs else c :: cs

/-- Value of a hex digit, if any. -/
def hexVal (c : Char) : Option Nat :=
  if '0' ≤ c ∧ c ≤ '9' then some (c.toNat - '0'.toNat)
  else if 'a' ≤ c ∧ c ≤ 'f' then some (c.toNat - 'a'.toNat + 10)
  else if 'A' ≤ c ∧ c ≤ 'F' then some (c.toNat - 'A'.toNat + 10)
  else none

/-- Single-character JSON string escapes. -/
def escChar (c : Char) : Option Char :=
  if c = '"' then some '"'
  else if c = '\\' then some '\\'
  else if c = '/' then some '/'
  else if c = 'b' then some (Char.ofNat 8)
  else if c = 'f' then some (Char.ofNat 12)
  else if c = 'n' then some '\n'
  else if c = 'r' then some '\r'
  else if c = 't' then some '\t'
  else none

/-- Parse the body of a JSON string after the opening quote; returns the
decoded characters and the remaining input after the closing quote. -/
def parseStringBody : List Char → Except String (List Char × List Char)
  | [] => .error "Unterminated string"
  | '"' :: rest => .ok ([], rest)
  | '\\' :: 'u' :: a :: b :: c :: d :: rest =>
    match hexVal a, hexVal b, hexVal c, hexVal d with
    | some h1, some h2, some h3, some h4 =>
      match parseStringBody rest with
      | .error e => .error e
      | .ok (s, r) => .ok (Char.ofNat (((h1 * 16 + h2) * 16 + h3) * 16 + h4) :: s, r)
    | _, _, _, _ => .error "Invalid unicode escape"
  | '\\' :: [] => .error "Unterminated string"
  | '\\' :: e :: rest =>
    match escChar e with
    | some c =>
      match parseStringBody rest with
      | .error err => .error err
      | .ok (s, r) => .ok (c :: s, r)
    | none => .error "Invalid escape"
  | c :: rest =>
    match parseStringBody rest with
    | .error e => .error e
    | .ok (s, r) => .ok (c :: s, r)

/-- Digits to a natural number. -/
def digitsToNat (ds : List Char) : Nat :=
  ds.foldl (fun n c => n * 10 + (c.toNat - '0'.toNat)) 0

/-- A JSON integer part with a superfluous leading zero. -/
def leadZero : List Char → Bool
  | '0' :: _ :: _ => true
  | _ => false

/-- Optional fraction part `.digits`. -/
def parseFrac : List Char → Except String (List Char × List Char)
  | '.' :: r =>
    match r.span Char.isDigit with
    | ([], _) => .error "Expecting digit in fraction"
    | (fds, rest) => .ok (fds, rest)
  | cs => .ok ([], cs)

/-- Exponent digits with optional sign, after `e`/`E`. -/
def parseExpTail (r : List Char) : Except String (Int × List Char) :=
  let sgn : Int × List Char :=
    match r with
    | '+' :: t => (1, t)
    | '-' :: t => (-1, t)
    | _ => (1, r)
  match sgn.2.span Char.isDigit with
  | ([], _) => .error "Expecting digit in exponent"
  | (eds, rest) => .ok (sgn.1 * Int.ofNat (digitsToNat eds), rest)

/-- Optional exponent part. -/
def parseExp : List Char → Except String (Int × List Char)
  | 'e' :: r => parseExpTail r
  | 'E' :: r => parseExpTail r
  | cs => .ok (0, cs)

/-- Parse a JSON number. -/
def parseNumber (cs : List Char) : Except String (JVal × List Char) :=
  let signed : Bool × List Char :=
    match cs with
    | '-' :: r => (true, r)
    | _ => (false, cs)
  match signed.2.span Char.isDigit with
  | ([], _) => .error "Expecting value"
  | (ds, cs2) =>
    if leadZero ds then .error "Expecting value"
    else
      match parseFrac cs2 with
      | .error e => .error e
      | .ok (fds, cs3) =>
        match parseExp cs3 with
        | .error e => .error e
        | .ok (ex, cs4) =>
          let mant : Nat := digitsToNat (ds ++ fds)
          let m : Int := if signed.1 then -(Int.ofNat mant) else Int.ofNat mant
          .ok (JVal.num m (ex - Int.ofNat fds.length), cs4)

mutual

/-- Parse one JSON value. -/
def parseVal : Nat → List Char → Except String (JVal × List Char)
  | 0, _ => .error "Value is too deeply nested"
  | Nat.succ fuel, cs =>
    match skipWs cs with
    | [] => .error "Expecting value"
    | '\x7b' :: rest => parseObjBody fuel rest
    | '[' :: rest => parseArrBody fuel rest
    | '"' :: rest =>
      match parseStringBody rest with
      | .error e => .error e
      | .ok (chs, r) => .ok (JVal.str (String.mk chs), r)
    | 'n' :: 'u' :: 'l' :: 'l' :: rest => .ok (JVal.null, rest)
    | 't' :: 'r' :: 'u' :: 'e' :: rest => .ok (JVal.bool true, rest)
    | 'f' :: 'a' :: 'l' :: 's' :: 'e' :: rest => .ok (JVal.bool false, rest)
    | other => parseNumber other

/-- Parse an array after the opening bracket. -/
def parseArrBody : Nat → List Char → Except String (JVal × List Char)
  | 0, _ => .error "Value is too deeply nested"
  | Nat.succ fuel, cs =>
    match skipWs cs with
    | ']' :: rest => .ok (JVal.arr [], rest)
    | cs2 =>
      match parseVal fuel cs2 with
      | .error e => .error e
      | .ok (v, r) => parseArrRest fuel [v] r

/-- Parse the remainder of an array after at least one element. -/
def parseArrRest : Nat → List JVal → List Char → Except String (JVal × List Char)
  | 0, _, _ => .error "Value is too deeply nested"
  | Nat.succ fuel, acc, cs =>
    match skipWs cs with
    | ']' :: rest => .ok (JVal.arr acc, rest)
    | ',' :: rest =>
      match parseVal fuel rest with
      | .error e => .error e
      | .ok (v, r) => parseArrRest fuel (acc ++ [v]) r
    | _ => .error "Expecting comma delimiter"

/-- Parse an object after the opening brace. -/
def parseObjBody : Nat → List Char → Except String (JVal × List Char)
  | 0, _ => .error "Value is too deeply nested"
  | Nat.succ fuel, cs =>
    match skipWs cs with
    | '\x7d' :: rest => .ok (JVal.obj [], rest)
    | cs2 =>
      match parseMember fuel cs2 with
      | .error e => .error e
      | .ok (k, v, r) => parseObjRest fuel [(k, v)] r

/-- Parse the remainder of an object after at least one member. -/
def parseObjRest : Nat → Dict → List Char → Except String (JVal × List Char)
  | 0, _, _ => .error "Value is too deeply nested"
  | Nat.succ fuel, acc, cs =>
    match skipWs cs with
    | '\x7d' :: rest => .ok (JVal.obj acc, rest)
    | ',' :: rest =>
      match parseMember fuel rest with
      | .error e => .error e
      | .ok (k, v, r) => parseObjRest fuel (dictInsert acc k v) r
    | _ => .error "Expecting comma delimiter"

/-- Parse one `"key": value` member. -/
def parseMember : Nat → List Char → Except String (String × JVal × List Char)
  | 0, _ => .error "Value is too deeply nested"
  | Nat.succ fuel, cs =>
    match skipWs cs with
    | '"' :: rest =>
      match parseStringBody rest with
      | .error e => .error e
      | .ok (kchs, r) =>
        match skipWs r with
        | ':' :: r2 =>
          match parseVal fuel r2 with
          | .error e => .error e
          | .ok (v, r3) => .ok (String.mk kchs, v, r3)
        | _ => .error "Expecting colon delimiter"
    | _ => .error "Expecting property name enclosed in double quotes"

end

/-- Model of `json.loads`: parse a complete JSON document, requiring only
whitespace after the value. -/
def json_loads (s : String) : Except String JVal :=
  match parseVal (2 * s.data.length + 8) s.data with
  | .error e => .error e
  | .ok (v, rest) =>
    match skipWs rest with
    | [] => .ok v
    | _ => .error "Extra data"

/-! ## The script itself -/

/-- Python `len(data.split('\n'))`: one more than the number of newline
characters. -/
def splitLineCount (data : String) : Nat :=
  (data.data.filter (fun c => c = '\n')).length + 1

/-- Lines 85-89 of the template: `if os.path.exists(input_file)` then read
it and count its lines, else leave `processed_count` at 0.  `os.path.exists`
raises `TypeError` on a non-path argument (the file-descriptor reading of
an integer argument is not modelled; no run in the claims exercises it). -/
def readCount (fs : FS) (input_file : JVal) : Except PyErr Nat :=
  match input_file with
  | .str p =>
    match fs.readFile p with
    | some data => .ok (splitLineCount data)
    | none => .ok 0
  | v => .error (.otherError "TypeError"
      ("argument should be a str or an os.PathLike object, not " ++ pyTypeName v))

/-- The JSON object written to the output file (lines 92-94); its textual
serialisation by `json.dumps` is abstracted to the value itself. -/
def outFileContent (cnt : Nat) : JVal :=
  JVal.obj [("processed", JVal.bool true), ("count", JVal.num (Int.ofNat cnt) 0)]

/-- Lines 92-94 of the template: `if output_file: open(output_file, 'w')`
and write the summary object.  Opening for writing fails with
`FileNotFoundError` on the filesystem's bad-write paths. -/
def writeOutput (fs : FS) (output_file : JVal) (cnt : Nat) : Except PyErr (List (String × JVal)) :=
  if truthy output_file then
    match output_file with
    | .str p =>
      if fs.badWrites.contains p then
        .error (.fileNotFoundError ("[Errno 2] No such file or directory: " ++ p))
      else .ok [(p, outFileContent cnt)]
    | v => .error (.otherError "TypeError"
        ("expected str, bytes or os.PathLike object, not " ++ pyTypeName v))
  else .ok []

/-- The `main` function of the template (lines 46-102): defaults for
`input_file`, `output_file` and `threshold`; `ValueError` when
`required_param` is absent; line counting of an existing input file;
writing the output file; and the result dictionary in insertion order.
Returns the result dictionary together with the writes performed.
A non-dict argument fails at `.get` with `AttributeError`. -/
def main' (inputs : JVal) (fs : FS) : Except PyErr (Dict × List (String × JVal)) :=
  match inputs with
  | .obj d =>
    let input_file := dictGetD d "input_file" (JVal.str "data/default.txt")
    let output_file := dictGetD d "output_file" (JVal.str "output/result.json")
    let threshold := dictGetD d "threshold" (JVal.num 10 0)
    if dictHas d "required_param" then
      match readCount fs input_file with
      | .error e => .error e
      | .ok cnt =>
        match writeOutput fs output_file cnt with
        | .error e => .error e
        | .ok ws =>
          .ok ([("success", JVal.bool true),
                ("processed_count", JVal.num (Int.ofNat cnt) 0),
                ("output_file", output_file),
                ("threshold_used", threshold)], ws)
    else .error (.valueError "Missing required parameter: required_param")
  | v => .error (.otherError "AttributeError"
      ("'" ++ pyTypeName v ++ "' object has no attribute 'get'"))

/-- The `validate_inputs` function of the template (lines 105-121).
Faithful to Python: `isinstance(threshold, (int, float))` also accepts
booleans, because `bool` is a subclass of `int`; and `True < 0`,
`False < 0` are both false, so a boolean threshold passes. -/
def validate_inputs (inputs : JVal) : Except PyErr Unit :=
  match pyIn "threshold" inputs with
  | .error e => .error e
  | .ok false => .ok ()
  | .ok true =>
    match pySubscript inputs "threshold" with
    | .error e => .error e
    | .ok t =>
      match t with
      | .num m sc =>
        if m < 0 then .error (.valueError ("threshold must be positive, got " ++ pyNumStr m sc))
        else .ok ()
      | .bool _ => .ok ()
      | v => .error (.valueError ("threshold must be a number, got " ++ pyTypeName v))

/-- Lines 138-143 of the `__main__` block: validate, then run `main`. -/
def scriptCore (inputs : JVal) (fs : FS) : Except PyErr (Dict × List (String × JVal)) :=
  match validate_inputs inputs with
  | .error e => .error e
  | .ok _ => main' inputs fs

/-- Lines 126-128: `json.loads(input_data) if input_data else ⟨empty dict⟩`
(empty stdin is never parsed; it becomes the empty dictionary). -/
def parsedInputs (stdin : String) : Except String JVal :=
  if stdin = "" then .ok (JVal.obj []) else json_loads stdin

/-- The observable outcome of one run: JSON objects printed to stdout in
order, the exit code, and the (path, content) file writes performed. -/
structure RunResult where
  stdoutObjs : List Dict
  exitCode : Nat
  writes : List (String × JVal)

/-- The error object built by each handler in the `__main__` block. -/
def errObj (msg ty : String) : Dict :=
  [("success", JVal.bool false), ("error", JVal.str msg), ("error_type", JVal.str ty)]

/-- Lines 153-179: the three `except` clauses, in Python's dispatch order
(`FileNotFoundError` before `ValueError` before the catch-all, mirrored
here by the error constructors). -/
def handleErr : PyErr → Dict
  | .fileNotFoundError m => errObj ("File not found: " ++ m) "FileNotFoundError"
  | .valueError m => errObj ("Invalid value: " ++ m) "ValueError"
  | .otherError ty m => errObj m ty

/-- Lines 146-147: fill in a missing `success` key as `True`. -/
def ensureSuccess (d : Dict) : Dict :=
  if dictHas d "success" then d else d ++ [("success", JVal.bool true)]

/-- The whole `if __name__ == '__main__'` block (lines 124-179). -/
def runScript (fs : FS) (stdin : String) : RunResult :=
  match parsedInputs stdin with
  | .error e => ⟨[errObj ("Invalid JSON input: " ++ e) "JSONDecodeError"], 1, []⟩
  | .ok inputs =>
    match scriptCore inputs fs with
    | .ok (output, ws) => ⟨[ensureSuccess output], 0, ws⟩
    | .error err => ⟨[handleErr err], 1, []⟩

/-! ## Requirement Registry status model

The requirement-registry and traceability-graph code described by the
specification (its sections 3, 4.3 and 4.4) is not among the source files
of this checkout; the status rule is therefore modelled from the spec. -/

/-- Modelled from the spec: the coverage level carried by a Feature or
Wave link (`full` or `partial`, constructor `part`); the registry code
itself is not under src/. -/
inductive CovLevel where
  | full : CovLevel
  | part : CovLevel

/-- Modelled from the spec: a Requirement's derived status `uncovered`,
`partial` (constructor `part`) or `covered`; the registry code itself is
not under src/. -/
inductive ReqStatus where
  | uncovered : ReqStatus
  | part : ReqStatus
  | covered : ReqStatus

/-- Position of a status along `uncovered → partial → covered`. -/
def ReqStatus.rank : ReqStatus → Nat
  | .uncovered => 0
  | .part => 1
  | .covered => 2

/-- Modelled from the spec: a covering-artifact link record (artifact
identifier, file path, coverage level). -/
structure CovLink where
  artifactId : String
  filePath : String
  level : CovLevel

/-- Modelled from the spec: one Requirement record of the registry, with
its growable Feature and Wave link lists and derived status. -/
structure Requirement where
  reqId : String
  description : String
  features : List CovLink
  waves : List CovLink
  status : ReqStatus

/-- Modelled from the spec (section 4.3): a freshly registered requirement
has empty link lists and status `uncovered`. -/
def newRequirement (i desc : String) : Requirement :=
  ⟨i, desc, [], [], .uncovered⟩

/-- Modelled from the spec (sections 3 and 4.4): the status update on one
link.  Wave links never change status; a `full` Feature link makes the
requirement `covered`, irrevocably; any other Feature link makes an
uncovered requirement `partial`. -/
def stepStatus (s : ReqStatus) (isFeature : Bool) (lvl : CovLevel) : ReqStatus :=
  if isFeature then
    match s, lvl with
    | .covered, _ => .covered
    | _, .full => .covered
    | _, .part => .part
  else s

/-- Modelled from the spec: append a Feature link and update status. -/
def linkFeature (r : Requirement) (l : CovLink) : Requirement :=
  { r with features := r.features ++ [l], status := stepStatus r.status true l.level }

/-- Modelled from the spec: append a Wave link; status is unchanged. -/
def linkWave (r : Requirement) (l : CovLink) : Requirement :=
  { r with waves := r.waves ++ [l], status := stepStatus r.status false l.level }

/-- One link event of a registry-build pass. -/
inductive LinkEvent where
  | feat (l : CovLink) : LinkEvent
  | wave (l : CovLink) : LinkEvent

/-- Apply one link event to a requirement. -/
def applyLink (r : Requirement) : LinkEvent → Requirement
  | .feat l => linkFeature r l
  | .wave l => linkWave r l

/-- Modelled from the spec (section 4.4): one registry-build pass applies
a sequence of Feature/Wave link events to a requirement. -/
def buildPass (r : Requirement) (evs : List LinkEvent) : Requirement :=
  evs.foldl applyLink r

theorem stepStatus_rank_le (s : ReqStatus) (b : Bool) (lvl : CovLevel) :
    s.rank ≤ (stepStatus s b lvl).rank := by
  cases b <;> cases s <;> cases lvl <;> simp [stepStatus, ReqStatus.rank]

theorem stepStatus_covered (b : Bool) (lvl : CovLevel) :
    stepStatus ReqStatus.covered b lvl = ReqStatus.covered := by
  cases b <;> cases lvl <;> rfl

theorem applyLink_rank_le (r : Requirement) (e : LinkEvent) :
    r.status.rank ≤ (applyLink r e).status.rank := by
  cases e <;> simp [applyLink, linkFeature, linkWave] <;> exact stepStatus_rank_le _ _ _

theorem applyLink_covered (r : Requirement) (e : LinkEvent) (h : r.status = ReqStatus.covered) :
    (applyLink r e).status = ReqStatus.covered := by
  cases e <;> simp [applyLink, linkFeature, linkWave, h, stepStatus_covered]

theorem buildPass_rank_le (r : Requirement) (evs : List LinkEvent) :
    r.status.rank ≤ (buildPass r evs).status.rank := by
  induction evs generalizing r with
  | nil => exact Nat.le_refl _
  | cons e t ih =>
    exact Nat.le_trans (applyLink_rank_le r e) (ih (applyLink r e))

theorem buildPass_covered (r : Requirement) (evs : List LinkEvent)
    (h : r.status = ReqStatus.covered) : (buildPass r evs).status = ReqStatus.covered := by
  induction evs generalizing r with
  | nil => exact h
  | cons e t ih => exact ih (applyLink r e) (applyLink_covered r e h)

/-! ## Helper lemmas about the script embedding -/

theorem dictHas_eq_isSome (d : Dict) (k : String) : dictHas d k = (dictGet d k).isSome := by
  induction d with
  | nil => rfl
  | cons p t ih =>
    cases h : (p.1 == k) with
    | true => simp [dictHas, dictGet, List.any_cons, List.find?_cons, h]
    | false =>
      simp only [dictHas, dictGet, List.any_cons, List.find?_cons, h, Bool.false_or] at ih ⊢
      exact ih

theorem dictGet_isSome_of_has (d : Dict) (k : String) (h : dictHas d k = true) :
    ∃ v, dictGet d k = some v := by
  rw [dictHas_eq_isSome] at h
  cases hg : dictGet d k with
  | none => rw [hg] at h; simp at h
  | some v => exact ⟨v, rfl⟩

theorem dictHas_of_get (d : Dict) (k : String) (v : JVal) (h : dictGet d k = some v) :
    dictHas d k = true := by
  rw [dictHas_eq_isSome, h]
  rfl

theorem runScript_parse_error (fs : FS) (stdin msg : String)
    (hne : ¬ stdin = "") (h : json_loads stdin = .error msg) :
    runScript fs stdin = ⟨[errObj ("Invalid JSON input: " ++ msg) "JSONDecodeError"], 1, []⟩ := by
  simp [runScript, parsedInputs, hne, h]

theorem runScript_core_error (fs : FS) (stdin : String) (v : JVal) (er : PyErr)
    (hp : parsedInputs stdin = .ok v) (hc : scriptCore v fs = .error er) :
    runScript fs stdin = ⟨[handleErr er], 1, []⟩ := by
  simp [runScript, hp, hc]

theorem runScript_core_ok (fs : FS) (stdin : String) (v : JVal) (o : Dict)
    (w : List (String × JVal))
    (hp : parsedInputs stdin = .ok v) (hc : scriptCore v fs = .ok (o, w)) :
    runScript fs stdin = ⟨[ensureSuccess o], 0, w⟩ := by
  simp [runScript, hp, hc]

theorem scriptCore_validate_error (v : JVal) (fs : FS) (er : PyErr)
    (h : validate_inputs v = .error er) : scriptCore v fs = .error er := by
  simp [scriptCore, h]

theorem scriptCore_validate_ok (v : JVal) (fs : FS)
    (h : validate_inputs v = .ok ()) : scriptCore v fs = main' v fs := by
  simp [scriptCore, h]

theorem main_required_missing (d : Dict) (fs : FS)
    (h : dictHas d "required_param" = false) :
    main' (JVal.obj d) fs = .error (.valueError "Missing required parameter: required_param") := by
  simp [main', h]

theorem main_ok_shape (v : JVal) (fs : FS) (o : Dict) (w : List (String × JVal))
    (h : main' v fs = .ok (o, w)) :
    ∃ d cnt,
      v = JVal.obj d ∧
      dictHas d "required_param" = true ∧
      readCount fs (dictGetD d "input_file" (JVal.str "data/default.txt")) = .ok cnt ∧
      writeOutput fs (dictGetD d "output_file" (JVal.str "output/result.json")) cnt = .ok w ∧
      o = [("success", JVal.bool true),
           ("processed_count", JVal.num (Int.ofNat cnt) 0),
           ("output_file", dictGetD d "output_file" (JVal.str "output/result.json")),
           ("threshold_used", dictGetD d "threshold" (JVal.num 10 0))] := by
  cases v with
  | obj d =>
    refine ⟨d, ?_⟩
    simp only [main'] at h
    split at h
    case isTrue hreq =>
      cases hrc : readCount fs (dictGetD d "input_file" (JVal.str "data/default.txt")) with
      | error e => simp [hrc] at h
      | ok cnt =>
        simp only [hrc] at h
        cases hwo : writeOutput fs (dictGetD d "output_file" (JVal.str "output/result.json")) cnt with
        | error e => simp [hwo] at h
        | ok ws =>
          simp only [hwo, Except.ok.injEq, Prod.mk.injEq] at h
          exact ⟨cnt, rfl, hreq, rfl, h.2 ▸ hwo, h.1.symm⟩
    case isFalse hreq => exact absurd h (by simp)
  | null => exact absurd h (by simp [main'])
  | bool b => exact absurd h (by simp [main'])
  | num m sc => exact absurd h (by simp [main'])
  | str s => exact absurd h (by simp [main'])
  | arr xs => exact absurd h (by simp [main'])

theorem readCount_agree (fs1 fs2 : FS) (v : JVal)
    (h : ∀ p, v = JVal.str p → fs1.readFile p = fs2.readFile p) :
    readCount fs1 v = readCount fs2 v := by
  cases v with
  | str p => simp [readCount, h p rfl]
  | null => rfl
  | bool b => rfl
  | num m sc => rfl
  | arr xs => rfl
  | obj d => rfl

theorem writeOutput_ok_unique (fs1 fs2 : FS) (v : JVal) (cnt : Nat)
    (w1 w2 : List (String × JVal))
    (h1 : writeOutput fs1 v cnt = .ok w1) (h2 : writeOutput fs2 v cnt = .ok w2) :
    w1 = w2 := by
  by_cases ht : truthy v = true
  · cases v with
    | str p =>
      simp only [writeOutput, ht, if_true] at h1 h2
      cases hb1 : fs1.badWrites.contains p with
      | true => rw [hb1] at h1; simp at h1
      | false =>
        cases hb2 : fs2.badWrites.contains p with
        | true => rw [hb2] at h2; simp at h2
        | false =>
          rw [hb1] at h1; rw [hb2] at h2
          simp at h1 h2
          rw [← h1, ← h2]
    | null => simp [truthy] at ht
    | bool b => simp [writeOutput, ht] at h1
    | num m sc => simp [writeOutput, ht] at h1
    | arr xs => simp [writeOutput, ht] at h1
    | obj d => simp [writeOutput, ht] at h1
  · simp only [Bool.not_eq_true] at ht
    simp [writeOutput, ht] at h1 h2
    rw [h1, h2]

/-! ## The claims -/

/-- C7: during one registry-build pass a Requirement's status attribute
only moves forward along uncovered → partial → covered: every single
Feature or Wave link event is non-decreasing in status rank, a whole pass
is non-decreasing in status rank, and a covered requirement stays covered
for the remainder of the pass regardless of subsequent Feature or Wave
links (never covered → partial and never covered → uncovered). -/
theorem requirement_status_monotone (r : Requirement) (e : LinkEvent) (evs : List LinkEvent) :
    r.status.rank ≤ (applyLink r e).status.rank ∧
    r.status.rank ≤ (buildPass r evs).status.rank ∧
    (buildPass { r with status := ReqStatus.covered } evs).status = ReqStatus.covered :=
  ⟨applyLink_rank_le r e, buildPass_rank_le r evs, buildPass_covered _ evs rfl⟩

/-- C9: empty stdin is not treated as malformed JSON.  Although
`json.loads` fails on the empty string, the script takes the empty input
object instead, proceeds to validation and `main`, and fails with the
missing-required-parameter ValueError and exit code 1 rather than with a
JSONDecodeError. -/
theorem empty_stdin_not_malformed (fs : FS) :
    parsedInputs "" = .ok (JVal.obj []) ∧
    (∃ msg, json_loads "" = .error msg) ∧
    runScript fs "" =
      ⟨[errObj "Invalid value: Missing required parameter: required_param" "ValueError"],
       1, []⟩ :=
  ⟨rfl, ⟨"Expecting value", rfl⟩, rfl⟩

/-- C10: `validate_inputs` accepts a threshold of exactly 0; it raises
only for a threshold value that is neither a number nor a boolean, or is
a number strictly less than 0; and a negative threshold is reported with
a message saying the threshold must be "positive". -/
theorem validate_accepts_zero_threshold (d : Dict) :
    (dictGet d "threshold" = some (JVal.num 0 0) → validate_inputs (JVal.obj d) = .ok ()) ∧
    (∀ er, validate_inputs (JVal.obj d) = .error er →
      ∃ v, dictGet d "threshold" = some v ∧
        ((isNumVal v = false ∧ (∀ b, v = JVal.bool b → False)) ∨
         (∃ m sc, v = JVal.num m sc ∧ m < 0))) ∧
    validate_inputs (JVal.obj [("threshold", JVal.num (-1) 0)]) =
      .error (.valueError "threshold must be positive, got -1") := by
  refine ⟨?_, ?_, rfl⟩
  · intro h
    have hhas := dictHas_of_get d "threshold" _ h
    simp [validate_inputs, pyIn, pySubscript, hhas, h]
  · intro er h
    cases hhas : dictHas d "threshold" with
    | false => simp [validate_inputs, pyIn, hhas] at h
    | true =>
      obtain ⟨v, hv⟩ := dictGet_isSome_of_has d "threshold" hhas
      refine ⟨v, hv, ?_⟩
      cases v with
      | num m sc =>
        by_cases hm : m < 0
        · exact Or.inr ⟨m, sc, rfl, hm⟩
        · simp [validate_inputs, pyIn, pySubscript, hhas, hv, hm] at h
      | bool b => simp [validate_inputs, pyIn, pySubscript, hhas, hv] at h
      | null => exact Or.inl ⟨rfl, fun b hb => JVal.noConfusion hb⟩
      | str s => exact Or.inl ⟨rfl, fun b hb => JVal.noConfusion hb⟩
      | arr xs => exact Or.inl ⟨rfl, fun b hb => JVal.noConfusion hb⟩
      | obj o => exact Or.inl ⟨rfl, fun b hb => JVal.noConfusion hb⟩

/-- Witness for C10 at a concrete dictionary with threshold 0. -/
theorem validate_accepts_zero_threshold_witness :
    validate_inputs (JVal.obj [("threshold", JVal.num 0 0)]) = .ok () :=
  (validate_accepts_zero_threshold [("threshold", JVal.num 0 0)]).1 rfl

theorem runScript_shape (fs : FS) (stdin : String) :
    ∃ o, (runScript fs stdin).stdoutObjs = [o] ∧
      (((runScript fs stdin).exitCode = 0 ∧ dictGet o "success" = some (JVal.bool true)) ∨
       ((runScript fs stdin).exitCode = 1 ∧ dictGet o "success" = some (JVal.bool false))) := by
  cases hp : parsedInputs stdin with
  | error e =>
    refine ⟨errObj ("Invalid JSON input: " ++ e) "JSONDecodeError", ?_, Or.inr ⟨?_, rfl⟩⟩ <;>
      simp [runScript, hp]
  | ok v =>
    cases hc : scriptCore v fs with
    | error er =>
      refine ⟨handleErr er, ?_, Or.inr ⟨?_, ?_⟩⟩
      · rw [runScript_core_error fs stdin v er hp hc]
      · rw [runScript_core_error fs stdin v er hp hc]
      · cases er <;> rfl
    | ok pr =>
      obtain ⟨o, w⟩ := pr
      have hm : main' v fs = .ok (o, w) := by
        cases hvv : validate_inputs v with
        | error er2 => simp [scriptCore, hvv] at hc
        | ok u => simpa [scriptCore, hvv] using hc
      obtain ⟨d, cnt, hv2, hreq, hrc, hwo, ho⟩ := main_ok_shape v fs o w hm
      refine ⟨ensureSuccess o, ?_, Or.inl ⟨?_, ?_⟩⟩
      · rw [runScript_core_ok fs stdin v o w hp hc]
      · rw [runScript_core_ok fs stdin v o w hp hc]
      · subst ho
        rfl

/-- C8: every run prints exactly one JSON object to stdout; that object
has a boolean `success` key which is true exactly when the process exits 0
and false exactly when it exits 1 (those are the only exit codes); and a
dictionary missing a `success` key is given one before printing. -/
theorem single_output_success_flag (fs : FS) (stdin : String) :
    (∃ o, (runScript fs stdin).stdoutObjs = [o] ∧
       dictGet o "success" = some (JVal.bool ((runScript fs stdin).exitCode == 0))) ∧
    ((runScript fs stdin).exitCode = 0 ∨ (runScript fs stdin).exitCode = 1) ∧
    (∀ o : Dict, dictHas (ensureSuccess o) "success" = true) := by
  obtain ⟨o, ho, hdisj⟩ := runScript_shape fs stdin
  refine ⟨⟨o, ho, ?_⟩, ?_, ?_⟩
  · rcases hdisj with ⟨he, hs⟩ | ⟨he, hs⟩ <;> rw [he, hs] <;> rfl
  · rcases hdisj with ⟨he, _⟩ | ⟨he, _⟩
    · exact Or.inl he
    · exact Or.inr he
  · intro o2
    cases h : dictHas o2 "success" with
    | true => simp [ensureSuccess, h]
    | false =>
      have he2 : ensureSuccess o2 = o2 ++ [("success", JVal.bool true)] := by
        simp [ensureSuccess, h]
      rw [he2]
      simp only [dictHas, List.any_append, List.any_cons, List.any_nil]
      simp

/-- C5: no exception escapes the top-level entry point.  Every run prints
exactly one JSON object and exits 0 or 1; and whenever validation or
`main` raises any exception, the run prints the handler's JSON error
object — carrying the exception's message in `error`, its Python type
name in `error_type`, and `success: false` — exits 1, and writes no
output (this includes a failure while writing the output file). -/
theorem no_uncaught_exception (fs : FS) (stdin : String) :
    (∃ o, (runScript fs stdin).stdoutObjs = [o]) ∧
    ((runScript fs stdin).exitCode = 0 ∨ (runScript fs stdin).exitCode = 1) ∧
    (∀ v er, parsedInputs stdin = .ok v → scriptCore v fs = .error er →
      runScript fs stdin = ⟨[handleErr er], 1, []⟩ ∧
      dictGet (handleErr er) "error_type" = some (JVal.str (pyErrType er)) ∧
      (∃ pre, dictGet (handleErr er) "error" = some (JVal.str (pre ++ pyErrMsg er))) ∧
      dictGet (handleErr er) "success" = some (JVal.bool false)) := by
  obtain ⟨o, ho, hdisj⟩ := runScript_shape fs stdin
  refine ⟨⟨o, ho⟩, ?_, ?_⟩
  · rcases hdisj with ⟨he, _⟩ | ⟨he, _⟩
    · exact Or.inl he
    · exact Or.inr he
  · intro v er hp hc
    refine ⟨runScript_core_error fs stdin v er hp hc, ?_, ?_, ?_⟩
    · cases er <;> rfl
    · cases er with
      | valueError m => exact ⟨"Invalid value: ", rfl⟩
      | fileNotFoundError m => exact ⟨"File not found: ", rfl⟩
      | otherError ty m => exact ⟨"", rfl⟩
    · cases er <;> rfl

/-- Witness for C5: a failing output-file write is caught and reported as
a JSON error object with exit code 1. -/
theorem no_uncaught_exception_witness :
    runScript ⟨[], ["output/result.json"]⟩ "\x7b\"required_param\":1\x7d" =
      ⟨[handleErr (.fileNotFoundError "[Errno 2] No such file or directory: output/result.json")],
       1, []⟩ :=
  ((no_uncaught_exception ⟨[], ["output/result.json"]⟩ "\x7b\"required_param\":1\x7d").2.2
      (JVal.obj [("required_param", JVal.num 1 0)])
      (.fileNotFoundError "[Errno 2] No such file or directory: output/result.json")
      rfl rfl).1

/-- C1: the process exits 0 when processing succeeds; it exits 1 when
stdin is not valid JSON; and it exits 1 when the parsed input object
lacks the required parameter `required_param`. -/
theorem exit_code_contract (fs : FS) (stdin : String) :
    ((∃ v r, parsedInputs stdin = .ok v ∧ scriptCore v fs = .ok r) →
      (runScript fs stdin).exitCode = 0) ∧
    ((∃ msg, json_loads stdin = .error msg) → (runScript fs stdin).exitCode = 1) ∧
    (∀ d, parsedInputs stdin = .ok (JVal.obj d) → dictHas d "required_param" = false →
      (runScript fs stdin).exitCode = 1) := by
  refine ⟨?_, ?_, ?_⟩
  · rintro ⟨v, ⟨o, w⟩, hp, hc⟩
    rw [runScript_core_ok fs stdin v o w hp hc]
  · rintro ⟨msg, hmsg⟩
    by_cases hne : stdin = ""
    · subst hne; rfl
    · rw [runScript_parse_error fs stdin msg hne hmsg]
  · intro d hp hreq
    cases hvv : validate_inputs (JVal.obj d) with
    | error er =>
      rw [runScript_core_error fs stdin _ er hp (scriptCore_validate_error _ fs er hvv)]
    | ok u =>
      cases u
      have hc : scriptCore (JVal.obj d) fs =
          .error (.valueError "Missing required parameter: required_param") := by
        rw [scriptCore_validate_ok _ fs hvv, main_required_missing d fs hreq]
      rw [runScript_core_error fs stdin _ _ hp hc]

/-- Witness for C1 at concrete runs: a successful run exits 0; an
unparsable stdin exits 1; an input object without `required_param`
exits 1. -/
theorem exit_code_contract_witness :
    (runScript ⟨[], []⟩ "\x7b\"required_param\":1\x7d").exitCode = 0 ∧
    (runScript ⟨[], []⟩ "\x7b").exitCode = 1 ∧
    (runScript ⟨[], []⟩ "\x7b\x7d").exitCode = 1 :=
  ⟨(exit_code_contract ⟨[], []⟩ "\x7b\"required_param\":1\x7d").1
      ⟨JVal.obj [("required_param", JVal.num 1 0)],
       ([("success", JVal.bool true), ("processed_count", JVal.num 0 0),
         ("output_file", JVal.str "output/result.json"),
         ("threshold_used", JVal.num 10 0)],
        [("output/result.json", outFileContent 0)]),
       rfl, rfl⟩,
   (exit_code_contract ⟨[], []⟩ "\x7b").2.1
      ⟨"Expecting property name enclosed in double quotes", rfl⟩,
   (exit_code_contract ⟨[], []⟩ "\x7b\x7d").2.2 [] rfl rfl⟩

/-- C2 (amended): for every non-empty stdin input that fails to parse as
JSON, the script prints exactly one JSON error object whose `error` field
is the parse error text prefixed by "Invalid JSON input: " and whose
`error_type` is `JSONDecodeError`, exits 1, and performs no write; the
result is the same for every filesystem, so `main` is never invoked.
(Empty stdin is instead replaced by the empty input object before
parsing; see the counterexample.) -/
theorem malformed_json_report (fs : FS) (stdin msg : String)
    (hne : ¬ stdin = "") (h : json_loads stdin = .error msg) :
    runScript fs stdin =
      ⟨[errObj ("Invalid JSON input: " ++ msg) "JSONDecodeError"], 1, []⟩ :=
  runScript_parse_error fs stdin msg hne h

/-- C2 counterexample: the empty string fails to parse as JSON
(`json.loads` errors on it), yet the script reports a ValueError from the
missing required parameter — not a JSONDecodeError — because empty stdin
is replaced by the empty input object and `main` IS invoked. -/
theorem malformed_json_counterexample :
    (∃ msg, json_loads "" = .error msg) ∧
    (runScript ⟨[], []⟩ "").stdoutObjs =
      [errObj "Invalid value: Missing required parameter: required_param" "ValueError"] ∧
    ((("ValueError" : String) == "JSONDecodeError") = false) :=
  ⟨⟨"Expecting value", rfl⟩, rfl, rfl⟩

/-- Witness for C2 (amended) at the concrete unparsable input "[". -/
theorem malformed_json_report_witness :
    runScript ⟨[], []⟩ "[" =
      ⟨[errObj "Invalid JSON input: Expecting value" "JSONDecodeError"], 1, []⟩ :=
  malformed_json_report ⟨[], []⟩ "[" "Expecting value" (by decide) rfl

/-- C3 (amended): a non-existent input file is not an error: `main` skips
reading it, so its line count is 0 and whenever `main` completes its
output reports `processed_count` 0; and when a `FileNotFoundError` IS
raised during processing (for instance because the output-file write
fails), the script prints the corresponding JSON error object on stdout
(not on the error stream), exits 1, and performs no write. -/
theorem missing_input_file_amended (fs : FS) (d : Dict) (p : String)
    (hin : dictGetD d "input_file" (JVal.str "data/default.txt") = JVal.str p)
    (hmiss : fs.readFile p = none) :
    readCount fs (dictGetD d "input_file" (JVal.str "data/default.txt")) = .ok 0 ∧
    (∀ o w, main' (JVal.obj d) fs = .ok (o, w) →
      dictGet o "processed_count" = some (JVal.num 0 0)) ∧
    (∀ stdin v m, parsedInputs stdin = .ok v →
      scriptCore v fs = .error (.fileNotFoundError m) →
      runScript fs stdin =
        ⟨[errObj ("File not found: " ++ m) "FileNotFoundError"], 1, []⟩) := by
  have hrc0 : readCount fs (dictGetD d "input_file" (JVal.str "data/default.txt")) = .ok 0 := by
    rw [hin]; simp [readCount, hmiss]
  refine ⟨hrc0, ?_, ?_⟩
  · intro o w h
    obtain ⟨d2, cnt, hobj, hreq, hrc, hwo, ho⟩ := main_ok_shape (JVal.obj d) fs o w h
    injection hobj with hd
    subst hd
    rw [hrc0] at hrc
    injection hrc with hcnt
    subst ho
    rw [← hcnt]
    rfl
  · intro stdin v m hp hc
    rw [runScript_core_error fs stdin v _ hp hc]
    rfl

/-- C3 counterexample: with the file argument "missing.txt" naming a file
absent from the filesystem, the run reports no error at all, exits 0 (not
non-zero), and even writes its output file. -/
theorem missing_input_file_counterexample :
    FS.readFile ⟨[], []⟩ "missing.txt" = none ∧
    runScript ⟨[], []⟩ "\x7b\"required_param\":1,\"input_file\":\"missing.txt\"\x7d" =
      ⟨[[("success", JVal.bool true), ("processed_count", JVal.num 0 0),
         ("output_file", JVal.str "output/result.json"),
         ("threshold_used", JVal.num 10 0)]],
       0,
       [("output/result.json", outFileContent 0)]⟩ :=
  ⟨rfl, rfl⟩

/-- Witness for C3 (amended): a missing input file yields line count 0,
and a failing output-file write is reported with exit code 1. -/
theorem missing_input_file_amended_witness :
    readCount (⟨[], ["output/result.json"]⟩ : FS)
      (dictGetD [("required_param", JVal.num 1 0), ("input_file", JVal.str "missing.txt")]
        "input_file" (JVal.str "data/default.txt")) = .ok 0 ∧
    runScript ⟨[], ["output/result.json"]⟩
        "\x7b\"required_param\":1,\"input_file\":\"missing.txt\"\x7d" =
      ⟨[errObj "File not found: [Errno 2] No such file or directory: output/result.json"
          "FileNotFoundError"], 1, []⟩ :=
  ⟨(missing_input_file_amended ⟨[], ["output/result.json"]⟩
      [("required_param", JVal.num 1 0), ("input_file", JVal.str "missing.txt")]
      "missing.txt" rfl rfl).1,
   (missing_input_file_amended ⟨[], ["output/result.json"]⟩
      [("required_param", JVal.num 1 0), ("input_file", JVal.str "missing.txt")]
      "missing.txt" rfl rfl).2.2
      "\x7b\"required_param\":1,\"input_file\":\"missing.txt\"\x7d"
      (JVal.obj [("required_param", JVal.num 1 0), ("input_file", JVal.str "missing.txt")])
      "[Errno 2] No such file or directory: output/result.json" rfl rfl⟩

/-- C4 (amended): a `threshold` that is neither a number nor a boolean, or
that is a number strictly below 0, is rejected by `validate_inputs` before
`main` executes: the run prints a ValueError object (naming the value's
type, or the negative value itself) and exits 1 with no write; the result
is the same for every filesystem.  (A boolean threshold passes because
Python `bool` is a subclass of `int`; see the counterexample.) -/
theorem threshold_validation_amended (fs : FS) (stdin : String) (d : Dict) (v : JVal)
    (hp : parsedInputs stdin = .ok (JVal.obj d))
    (ht : dictGet d "threshold" = some v) :
    ((∀ m sc, v = JVal.num m sc → False) → (∀ b, v = JVal.bool b → False) →
      runScript fs stdin =
        ⟨[errObj ("Invalid value: threshold must be a number, got " ++ pyTypeName v)
            "ValueError"], 1, []⟩) ∧
    (∀ m sc, v = JVal.num m sc → m < 0 →
      runScript fs stdin =
        ⟨[errObj ("Invalid value: threshold must be positive, got " ++ pyNumStr m sc)
            "ValueError"], 1, []⟩) := by
  have hhas := dictHas_of_get d "threshold" v ht
  constructor
  · intro hnum hbool
    have hval : validate_inputs (JVal.obj d) =
        .error (.valueError ("threshold must be a number, got " ++ pyTypeName v)) := by
      cases v with
      | num m sc => exact (hnum m sc rfl).elim
      | bool b => exact (hbool b rfl).elim
      | null => simp [validate_inputs, pyIn, pySubscript, hhas, ht]
      | str s => simp [validate_inputs, pyIn, pySubscript, hhas, ht]
      | arr xs => simp [validate_inputs, pyIn, pySubscript, hhas, ht]
      | obj o => simp [validate_inputs, pyIn, pySubscript, hhas, ht]
    rw [runScript_core_error fs stdin _ _ hp (scriptCore_validate_error _ fs _ hval)]
    rfl
  · intro m sc hv hm
    subst hv
    have hval : validate_inputs (JVal.obj d) =
        .error (.valueError ("threshold must be positive, got " ++ pyNumStr m sc)) := by
      simp [validate_inputs, pyIn, pySubscript, hhas, ht, hm]
    rw [runScript_core_error fs stdin _ _ hp (scriptCore_validate_error _ fs _ hval)]
    rfl

/-- C4 counterexample: a boolean threshold is not a JSON number, yet
validation accepts it (Python `bool` is a subclass of `int`), `main` runs,
and the process exits 0 — no ValueError is raised. -/
theorem threshold_validation_counterexample :
    json_loads "\x7b\"required_param\":1,\"threshold\":true\x7d" =
      .ok (JVal.obj [("required_param", JVal.num 1 0), ("threshold", JVal.bool true)]) ∧
    dictGet [("required_param", JVal.num 1 0), ("threshold", JVal.bool true)] "threshold" =
      some (JVal.bool true) ∧
    isNumVal (JVal.bool true) = false ∧
    validate_inputs
      (JVal.obj [("required_param", JVal.num 1 0), ("threshold", JVal.bool true)]) = .ok () ∧
    (runScript ⟨[], []⟩ "\x7b\"required_param\":1,\"threshold\":true\x7d").exitCode = 0 :=
  ⟨rfl, rfl, rfl, rfl, rfl⟩

/-- Witness for C4 (amended): a null threshold and a negative threshold
are both rejected before `main` runs. -/
theorem threshold_validation_amended_witness :
    runScript ⟨[], []⟩ "\x7b\"threshold\":null\x7d" =
      ⟨[errObj "Invalid value: threshold must be a number, got NoneType" "ValueError"],
       1, []⟩ ∧
    runScript ⟨[], []⟩ "\x7b\"threshold\":-3\x7d" =
      ⟨[errObj "Invalid value: threshold must be positive, got -3" "ValueError"], 1, []⟩ :=
  ⟨(threshold_validation_amended ⟨[], []⟩ "\x7b\"threshold\":null\x7d"
      [("threshold", JVal.null)] JVal.null rfl rfl).1
      (fun m sc h => JVal.noConfusion h) (fun b h => JVal.noConfusion h),
   (threshold_validation_amended ⟨[], []⟩ "\x7b\"threshold\":-3\x7d"
      [("threshold", JVal.num (-3) 0)] (JVal.num (-3) 0) rfl rfl).2
      (-3) 0 rfl (by decide)⟩

/-- C6: `main` is deterministic in the two-run sense: two completing runs
with the same input object whose filesystems agree on the referenced
input file (same existence and same contents) return identical output
dictionaries and perform identical writes. -/
theorem main_two_run_deterministic (d : Dict) (fs1 fs2 : FS)
    (hread : ∀ p, dictGetD d "input_file" (JVal.str "data/default.txt") = JVal.str p →
      fs1.readFile p = fs2.readFile p) :
    ∀ r1 r2, main' (JVal.obj d) fs1 = .ok r1 → main' (JVal.obj d) fs2 = .ok r2 → r1 = r2 := by
  intro r1 r2 h1 h2
  obtain ⟨o1, w1⟩ := r1
  obtain ⟨o2, w2⟩ := r2
  obtain ⟨d1, cnt1, hobj1, hreq1, hrc1, hwo1, ho1⟩ := main_ok_shape _ fs1 o1 w1 h1
  obtain ⟨d2, cnt2, hobj2, hreq2, hrc2, hwo2, ho2⟩ := main_ok_shape _ fs2 o2 w2 h2
  injection hobj1 with hd1
  injection hobj2 with hd2
  subst hd1
  subst hd2
  have hragree : readCount fs1 (dictGetD d "input_file" (JVal.str "data/default.txt")) =
      readCount fs2 (dictGetD d "input_file" (JVal.str "data/default.txt")) :=
    readCount_agree fs1 fs2 _ hread
  rw [hrc1, hrc2] at hragree
  injection hragree with hcnt
  subst hcnt
  have hw : w1 = w2 := writeOutput_ok_unique fs1 fs2 _ cnt1 w1 w2 hwo1 hwo2
  subst ho1
  subst ho2
  rw [hw]

/-- Witness for C6: two filesystems agreeing on the input file (one with
an extra unrelated file) give identical `main` results on the same
inputs. -/
theorem main_two_run_deterministic_witness :
    (([("success", JVal.bool true), ("processed_count", JVal.num 2 0),
       ("output_file", JVal.str "output/result.json"),
       ("threshold_used", JVal.num 10 0)],
      [("output/result.json", outFileContent 2)]) :
        Dict × List (String × JVal)) =
      ([("success", JVal.bool true), ("processed_count", JVal.num 2 0),
        ("output_file", JVal.str "output/result.json"),
        ("threshold_used", JVal.num 10 0)],
       [("output/result.json", outFileContent 2)]) :=
  main_two_run_deterministic
    [("required_param", JVal.num 1 0), ("input_file", JVal.str "in.txt")]
    ⟨[("in.txt", "a\nb")], []⟩ ⟨[("in.txt", "a\nb"), ("other.txt", "zzz")], []⟩
    (fun p hp => by injection hp with h; subst h; rfl)
    _ _ rfl rfl
